import Mathlib

/-!
Verification development for the EVM genesis / virtual-frontier-contract
subsystem of the fork-dym-ethermint repository.

The Go sources embedded here:
- x/evm/types/virtual_frontier_bank_contract.go (method dispatcher,
  bank-contract metadata validation),
- x/evm/genesis.go (InitGenesis),
- x/evm/types/virtual_frontier_contract_test.go (pins the behaviour of
  VirtualFrontierContract.ValidateBasic and ContractAddress, whose
  implementation file is not part of the sources; those two are modelled
  from the spec, constrained by the test expectations).

Bytes are modelled as Nat (values < 256 in every reachable state); hex
strings as Lean String.
-/

set_option maxRecDepth 4000

namespace FDE

/-! ## Hex encoding (encoding/hex) and go-ethereum common helpers -/

/-- Lowercase hex encoding of a byte list, two chars per byte, as in Go's
hex.EncodeToString. `Nat.digitChar` yields lowercase letters for 10..15,
matching Go's output, so the `strings.ToLower` applied on top of
`hex.EncodeToString` in the source is the identity and is not repeated here. -/
def encodeHexChars : List Nat → List Char
  | [] => []
  | b :: rest => Nat.digitChar (b / 16) :: Nat.digitChar (b % 16) :: encodeHexChars rest

/-- hex.EncodeToString: byte list to lowercase hex string. -/
def hexEncodeToString (bs : List Nat) : String :=
  String.mk (encodeHexChars bs)

/-- Value of a single hex digit character, if any (accepts both cases),
as in Go's encoding/hex digit decoding. -/
def hexDigitVal (c : Char) : Option Nat :=
  if '0' ≤ c ∧ c ≤ '9' then some (c.toNat - '0'.toNat)
  else if 'a' ≤ c ∧ c ≤ 'f' then some (c.toNat - 'a'.toNat + 10)
  else if 'A' ≤ c ∧ c ≤ 'F' then some (c.toNat - 'A'.toNat + 10)
  else none

/-- hex.DecodeString as used by common.Hex2Bytes: decodes hex digit pairs
from the front and stops (dropping the rest) at the first byte that cannot
be decoded — Go's Hex2Bytes ignores the returned error and keeps the
successfully decoded prefix. -/
def decodeHexPairs : List Char → List Nat
  | c1 :: c2 :: rest =>
    match hexDigitVal c1, hexDigitVal c2 with
    | some h, some l => (16 * h + l) :: decodeHexPairs rest
    | _, _ => []
  | _ => []

/-- common.Hex2Bytes: no 0x-prefix handling, no odd-length padding. -/
def hex2Bytes (s : String) : List Nat :=
  decodeHexPairs s.data

/-- common.has0xPrefix on the character list of the string. -/
def has0x (cs : List Char) : Bool :=
  match cs with
  | c1 :: c2 :: _ => c1 = '0' ∧ (c2 = 'x' ∨ c2 = 'X')
  | _ => false

/-- common.FromHex: strip an optional 0x/0X prefix, left-pad odd-length
input with a single 0 digit, then decode. -/
def fromHexChars (cs : List Char) : List Nat :=
  let cs := if has0x cs then cs.drop 2 else cs
  let cs := if cs.length % 2 = 1 then '0' :: cs else cs
  decodeHexPairs cs

/-- common.BytesToAddress: keep the last 20 bytes, left-padded with zeros. -/
def bytesToAddress (bs : List Nat) : List Nat :=
  let bs := bs.drop (bs.length - 20)
  List.replicate (20 - bs.length) 0 ++ bs

/-- common.HexToAddress. -/
def hexToAddress (s : String) : List Nat :=
  bytesToAddress (fromHexChars s.data)

/-- common.BytesToHash: keep the last 32 bytes, left-padded with zeros. -/
def bytesToHash (bs : List Nat) : List Nat :=
  let bs := bs.drop (bs.length - 32)
  List.replicate (32 - bs.length) 0 ++ bs

/-- common.HexToHash. -/
def hexToHash (s : String) : List Nat :=
  bytesToHash (fromHexChars s.data)

/-- Is `c` a hex digit (either case)? -/
def isHexChar (c : Char) : Bool :=
  (hexDigitVal c).isSome

/-- common.IsHexAddress: after stripping an optional 0x prefix, exactly 40
characters, all hex digits. -/
def isHexAddress (s : String) : Bool :=
  let cs := if has0x s.data then s.data.drop 2 else s.data
  cs.length = 40 ∧ cs.all isHexChar

/-- ASCII lowercasing of one character, as Go's strings.ToLower acts on
the ASCII range. -/
def charToLower (c : Char) : Char :=
  if 'A' ≤ c ∧ c ≤ 'Z' then Char.ofNat (c.toNat + 32) else c

/-- strings.ToLower (ASCII range). -/
def toLowerStr (s : String) : String :=
  String.mk (s.data.map charToLower)

/-- ASCII uppercasing of one character, as Go's strings.ToUpper acts on
the ASCII range. -/
def charToUpper (c : Char) : Char :=
  if 'a' ≤ c ∧ c ≤ 'z' then Char.ofNat (c.toNat - 32) else c

/-- strings.ToUpper (ASCII range). -/
def toUpperStr (s : String) : String :=
  String.mk (s.data.map charToUpper)

/-- strings.HasPrefix(s, "0x"). -/
def hasPre0x (s : String) : Bool :=
  match s.data with
  | '0' :: 'x' :: _ => true
  | _ => false

/-! ## Keccak-256 (go-ethereum crypto.Keccak256Hash)

Ethereum's Keccak-256: the original Keccak padding (0x01 … 0x80), rate 136
bytes, 32-byte digest. Lanes are 64-bit words modelled as Nat masked to
2^64. -/

/-- 2^64 - 1, the lane mask. -/
def mask64 : Nat := 0xFFFFFFFFFFFFFFFF

/-- Rotate a 64-bit lane left by `n` (0 ≤ n < 64). -/
def rotl64 (x n : Nat) : Nat :=
  ((x <<< n) ||| (x >>> (64 - n))) &&& mask64

/-- One step of the degree-8 LFSR (polynomial x^8 + x^6 + x^5 + x^4 + 1)
that generates the Keccak round-constant bits. -/
def keccakLfsrStep (r : Nat) : Nat :=
  let r := r <<< 1
  if r &&& 0x100 ≠ 0 then (r ^^^ 0x71) &&& 0xFF else r &&& 0xFF

/-- LFSR state after t steps from the initial state 1. -/
def keccakLfsr : Nat → Nat
  | 0 => 1
  | t + 1 => keccakLfsrStep (keccakLfsr t)

/-- Keccak-f[1600] round constants, generated as in the reference
specification: bit 2^j - 1 of RC[i] is the LFSR output at time 7i + j. -/
def keccakRC : List Nat :=
  (List.range 24).map fun i =>
    (List.range 7).foldl (fun acc j => acc ||| ((keccakLfsr (7 * i + j) &&& 1) <<< (2 ^ j - 1))) 0

/-- Rotation offsets of the rho step, column-major: entry x of the outer
list holds the offsets of lanes (x, 0) … (x, 4). -/
def keccakRotCols : List (List Nat) :=
  [[0, 36, 3, 41, 18],
   [1, 44, 10, 45, 2],
   [62, 6, 43, 15, 61],
   [28, 55, 25, 21, 56],
   [27, 20, 39, 8, 14]]

/-- Rotation offset of lane (x, y). -/
def keccakRotOff (x y : Nat) : Nat :=
  (keccakRotCols.getD x []).getD y 0

/-- Lane access in a 25-lane state, flat-indexed by x + 5*y. -/
def lane (A : List Nat) (i : Nat) : Nat := A.getD i 0

/-- Theta step. -/
def keccakTheta (A : List Nat) : List Nat :=
  let C := (List.range 5).map fun x =>
    lane A x ^^^ lane A (x + 5) ^^^ lane A (x + 10) ^^^ lane A (x + 15) ^^^ lane A (x + 20)
  let D := (List.range 5).map fun x =>
    lane C ((x + 4) % 5) ^^^ rotl64 (lane C ((x + 1) % 5)) 1
  (List.range 25).map fun i => lane A i ^^^ lane D (i % 5)

/-- Combined rho and pi steps: the target lane (X, Y) receives the rotated
source lane (x, y) with x = (X + 3Y) mod 5, y = X. -/
def keccakRhoPi (A : List Nat) : List Nat :=
  (List.range 25).map fun i =>
    let X := i % 5
    let Y := i / 5
    let sx := (X + 3 * Y) % 5
    let sy := X
    rotl64 (lane A (sx + 5 * sy)) (keccakRotOff sx sy)

/-- Chi step; complement within 64 bits is xor with the lane mask. -/
def keccakChi (A : List Nat) : List Nat :=
  (List.range 25).map fun i =>
    let x := i % 5
    let row := 5 * (i / 5)
    lane A i ^^^ ((lane A (row + (x + 1) % 5) ^^^ mask64) &&& lane A (row + (x + 2) % 5))

/-- Iota step. -/
def keccakIota (rc : Nat) (A : List Nat) : List Nat :=
  match A with
  | a0 :: rest => (a0 ^^^ rc) :: rest
  | [] => []

/-- Keccak-f[1600]: 24 rounds. -/
def keccakF (A : List Nat) : List Nat :=
  keccakRC.foldl (fun A rc => keccakIota rc (keccakChi (keccakRhoPi (keccakTheta A)))) A

/-- Load an 8-byte little-endian lane. -/
def loadLane (bs : List Nat) : Nat :=
  bs.foldr (fun b acc => (acc <<< 8) ||| b) 0

/-- The 8 little-endian bytes of a lane. -/
def laneBytes (x : Nat) : List Nat :=
  (List.range 8).map fun i => (x >>> (8 * i)) &&& 0xFF

/-- Absorb one 136-byte block and permute. -/
def absorbBlock (A : List Nat) (block : List Nat) : List Nat :=
  let lanes := (List.range 17).map fun j => loadLane ((block.drop (8 * j)).take 8)
  keccakF ((List.range 25).map fun i =>
    if i < 17 then lane A i ^^^ lane lanes i else lane A i)

/-- Split a byte list into 136-byte blocks; structurally recursive on a
fuel bound (the list length suffices, each step consuming 136 bytes). -/
def splitBlocksAux : Nat → List Nat → List (List Nat)
  | 0, _ => []
  | fuel + 1, bs => if bs = [] then [] else bs.take 136 :: splitBlocksAux fuel (bs.drop 136)

/-- Split a (padded) byte list into 136-byte blocks. -/
def splitBlocks (bs : List Nat) : List (List Nat) :=
  splitBlocksAux bs.length bs

/-- Original Keccak pad10*1 with domain byte 0x01 at rate 136. -/
def keccakPad (bs : List Nat) : List Nat :=
  let padLen := 136 - bs.length % 136
  bs ++ (if padLen = 1 then [0x81] else 0x01 :: (List.replicate (padLen - 2) 0 ++ [0x80]))

/-- crypto.Keccak256: 32-byte digest of a byte list. -/
def keccak256 (bs : List Nat) : List Nat :=
  let A := (splitBlocks (keccakPad bs)).foldl absorbBlock (List.replicate 25 0)
  ((A.take 4).map laneBytes).flatten

/-! ## The virtual frontier bank contract (x/evm/types/virtual_frontier_bank_contract.go) -/

/-- VFBankContractMethod enum. -/
inductive VFBankContractMethod where
  | VFBCmUnknown
  | VFBCmName
  | VFBCmSymbol
  | VFBCmDecimals
  | VFBCmTotalSupply
  | VFBCmBalanceOf
  | VFBCmTransfer
deriving DecidableEq, Repr

export VFBankContractMethod (VFBCmUnknown VFBCmName VFBCmSymbol VFBCmDecimals VFBCmTotalSupply VFBCmBalanceOf VFBCmTransfer)

/-- VFBankContractMetadata message fields. -/
structure VFBankContractMetadata where
  MinDenom : String
  Exponent : Nat
  DisplayName : String
deriving DecidableEq, Repr

/-- VFBankContractMetadata.ValidateBasic: `some msg` models a returned
error, `none` models nil. -/
def VFBankContractMetadata.ValidateBasic (m : VFBankContractMetadata) : Option String :=
  if m.MinDenom.length = 0 then some "min denom cannot be empty" else none

/-- GetMethodFromSignature. In the source this is a method on
VFBankContractMetadata that ignores its receiver, so it is embedded as a
standalone function on the call payload. It switches on the lowercase hex
encoding of the first four payload bytes. -/
def GetMethodFromSignature (input : List Nat) : VFBankContractMethod × Bool :=
  if input.length < 4 then (VFBCmUnknown, false)
  else
    let s := hexEncodeToString (input.take 4)
    if s = "06fdde03" then (VFBCmName, true)
    else if s = "95d89b41" then (VFBCmSymbol, true)
    else if s = "313ce567" then (VFBCmDecimals, true)
    else if s = "18160ddd" then (VFBCmTotalSupply, true)
    else if s = "70a08231" then (VFBCmBalanceOf, true)
    else if s = "a9059cbb" then (VFBCmTransfer, true)
    else (VFBCmUnknown, false)

/-! ## Virtual frontier contract records -/

/-- VirtualFrontierContract record. The `Metadata` field is an opaque
serialized payload in the source; wire codecs are out of scope, so it is
carried here in decoded form (the only registered schema is the bank
contract's). Type is the uint32 enum: 0 = Unknown, 1 = BankContract. -/
structure VirtualFrontierContract where
  Address : String
  Active : Bool
  Type' : Nat
  Metadata : VFBankContractMetadata
deriving DecidableEq, Repr

/-- The canonical textual form of the nil (all-zero) address. -/
def zeroAddressText : String := "0x0000000000000000000000000000000000000000"

/-- Modelled from the spec: VirtualFrontierContract.ContractAddress, whose
implementation file is not among the sources; per the spec's AddressCodec
(optional 0x prefix, empty input decodes to the zero address) and the
repository test TestVirtualFrontierContract_ContractAddress it is
common.HexToAddress applied to the record's address text. -/
def VirtualFrontierContract.ContractAddress (m : VirtualFrontierContract) : List Nat :=
  hexToAddress m.Address

/-- Modelled from the spec: VirtualFrontierContract.ValidateBasic, whose
implementation file is not among the sources. Checks, in the spec's order:
nil address, malformed address, 0x prefix, lowercase, contract type,
then type-specific metadata validation; error messages are the spec's.
The repository test TestVirtualFrontierContract_ValidateBasic pins the
empty address to "malformed address", so the nil-address comparison is
against the canonical textual zero address, not the decoded bytes.
`some msg` models a returned error, `none` models nil. -/
def VirtualFrontierContract.ValidateBasic (m : VirtualFrontierContract) : Option String :=
  if m.Address = zeroAddressText then some "nil address"
  else if ¬ isHexAddress m.Address then some "malformed address"
  else if ¬ hasPre0x m.Address then some "must start with 0x"
  else if m.Address ≠ toLowerStr m.Address then some "must be lowercase"
  else if m.Type' ≠ 1 then some "type must be specified"
  else if (m.Metadata.ValidateBasic).isSome then some "metadata does not pass validation"
  else none

/-! ## Genesis state (x/evm/genesis.go)

The keeper, account keeper and bank keeper stores are modelled as explicit
state; chain-profile predicates (utils.IsOneOfDymensionChains,
utils.IsEthermintDevChain) are booleans of the context. A Go panic is
modelled as `Except.error (msg, s)` carrying the state at the moment of
the panic, so "panics before any mutation" is expressible. -/

/-- Module parameters consumed by InitGenesis. -/
structure Params where
  EnableCreate : Bool
  EvmDenom : String
deriving DecidableEq, Repr

/-- One storage entry of a genesis account. -/
structure GenState where
  Key : String
  Value : String
deriving DecidableEq, Repr

/-- GenesisAccount. -/
structure GenesisAccount where
  Address : String
  Code : String
  Storage : List GenState
deriving DecidableEq, Repr

/-- GenesisState. -/
structure GenesisState where
  Params : Params
  Accounts : List GenesisAccount
  VirtualFrontierContracts : List VirtualFrontierContract
deriving DecidableEq, Repr

/-- A native account as seen through the account keeper: whether the
concrete value implements EthAccountI, and its recorded code hash. -/
structure NativeAccount where
  isEthAccount : Bool
  codeHash : List Nat
deriving DecidableEq, Repr

/-- A bank denomination unit. -/
structure BankDenomUnit where
  Denom : String
  Exponent : Nat
deriving DecidableEq, Repr

/-- banktypes.Metadata, the fields InitGenesis touches. -/
structure BankMetadata where
  DenomUnits : List BankDenomUnit
  Base : String
  Display : String
  Name : String
  Symbol : String
deriving DecidableEq, Repr

/-- Chain context flags. -/
structure Ctx where
  isDymensionChain : Bool
  isEthermintDevChain : Bool
deriving DecidableEq, Repr

/-- The mutable state threaded through InitGenesis: EVM keeper stores,
account keeper and bank keeper contents. -/
structure EvmState where
  params : Params
  accounts : List (List Nat × NativeAccount)
  codes : List (List Nat × List Nat)
  storage : List ((List Nat × List Nat) × List Nat)
  vfContracts : List VirtualFrontierContract
  denomMetadatas : List (String × BankMetadata)
  evmModuleAddressSet : Bool
  vfcDeployerAddressSet : Bool
  deployerSequence : Nat
deriving DecidableEq, Repr

/-- Result of a genesis step: a final state, or a panic message with the
state at the moment of the panic. -/
abbrev GRes := Except (String × EvmState) EvmState

/-- Panic helper. -/
def gpanic (msg : String) (s : EvmState) : GRes := Except.error (msg, s)

/-- accountKeeper.GetAccount by 20-byte account address. -/
def lookupAccount (s : EvmState) (addr : List Nat) : Option NativeAccount :=
  (s.accounts.find? (fun p => p.1 = addr)).map (·.2)

/-- k.SetCode: write code into the content-addressed code store. -/
def setCode (s : EvmState) (hash code : List Nat) : EvmState :=
  { s with codes := (hash, code) :: s.codes }

/-- k.SetState: write one storage slot. -/
def setEvmState (s : EvmState) (addr key value : List Nat) : EvmState :=
  { s with storage := ((addr, key), value) :: s.storage }

/-- The body of InitGenesis's account loop (genesis.go lines 62-93):
resolve the account, require EthAccountI, verify the code hash when the
code field is non-empty, write code and storage. -/
def initGenesisAccount (s : EvmState) (account : GenesisAccount) : GRes :=
  let address := hexToAddress account.Address
  let accAddress := address
  match lookupAccount s accAddress with
  | none => gpanic ("account not found for address " ++ account.Address) s
  | some acc =>
    if ¬ acc.isEthAccount then
      gpanic ("account " ++ account.Address ++ " must be an EthAccount interface") s
    else
      let code := hex2Bytes account.Code
      let codeHash := keccak256 code
      if account.Code.length ≠ 0 ∧ acc.codeHash ≠ codeHash then
        gpanic "the evm state code doesn't match with the codehash" s
      else
        let s1 := setCode s codeHash code
        let s2 := account.Storage.foldl
          (fun st e => setEvmState st address (hexToHash e.Key) (hexToHash e.Value)) s1
        Except.ok s2

/-- The account loop of InitGenesis. -/
def initGenesisAccounts (s : EvmState) (accounts : List GenesisAccount) : GRes :=
  accounts.foldlM initGenesisAccount s

/-- Modelled from the spec: k.GetVirtualFrontierBankContractAddressByDenom,
whose keeper implementation is not among the sources; per spec 4.3 it scans
the active BankContract records for one whose reference denomination is
`denom` and reports its address, or not-found. -/
def getVFBankContractAddressByDenom (s : EvmState) (denom : String) : Option (List Nat) :=
  (s.vfContracts.find? (fun c => c.Active && c.Type' == 1 && c.Metadata.MinDenom == denom)).map
    (·.ContractAddress)

/-- bankKeeper.GetDenomMetaData. -/
def getDenomMetaData (s : EvmState) (denom : String) : Option BankMetadata :=
  (s.denomMetadatas.find? (fun p => p.1 == denom)).map (·.2)

/-- bankKeeper.SetDenomMetaData. -/
def setDenomMetaData (s : EvmState) (md : BankMetadata) : EvmState :=
  { s with denomMetadatas := (md.Base, md) :: s.denomMetadatas }

/-- Go string slicing denom[i:]: bytes from index i, a runtime panic when
the index exceeds the length. -/
def goSliceFrom (s : String) (i : Nat) : Option String :=
  if i ≤ s.data.length then some (String.mk (s.data.drop i)) else none

/-- Modelled from the spec: types.CollectMetadataForVirtualFrontierBankContract,
whose implementation is not among the sources; per spec 4.6 step 5 it
validates the presentation metadata of the denomination — a non-empty base
denomination and a denomination unit carrying the display name — and
reports whether the metadata is usable. -/
def collectMetadataForVirtualFrontierBankContract (meta : BankMetadata) :
    BankMetadata × Bool :=
  (meta, meta.Base ≠ "" && meta.DenomUnits.any (fun u => u.Denom == meta.Display))

/-- Little-endian byte decomposition, structurally recursive on a fuel
bound. -/
def natBytesLEAux : Nat → Nat → List Nat
  | 0, _ => []
  | fuel + 1, n => if n = 0 then [] else n % 256 :: natBytesLEAux fuel (n / 256)

/-- Little-endian byte decomposition of a Nat (the value itself bounds the
number of digits). -/
def natBytesLE (n : Nat) : List Nat :=
  natBytesLEAux n n

/-- Modelled from the spec: the deterministic derivation of the next
virtual-frontier-contract address from the deployer sequence number. The
spec (4.4) leaves the concrete scheme open, requiring only determinism,
injectivity over the counter domain and no collision with the nil address;
this model uses the big-endian bytes of (sequence + 1), left-padded to 20
bytes. -/
def vfcAddressFromSequence (sequence : Nat) : List Nat :=
  bytesToAddress (natBytesLE (sequence + 1)).reverse

/-- Textual form of a 20-byte address: 0x plus lowercase hex. -/
def formatAddress (addr : List Nat) : String :=
  "0x" ++ hexEncodeToString addr

/-- Modelled from the spec: VirtualContractRegistry.create (spec 4.3),
the keeper write path used by both the deployer and the genesis bulk
import; it runs the record-level ValidateBasic gate, rejects a duplicate
address, and appends the record in insertion order. -/
def vfcCreate (s : EvmState) (c : VirtualFrontierContract) : Except String EvmState :=
  match c.ValidateBasic with
  | some e => Except.error e
  | none =>
    if s.vfContracts.any (fun d => d.Address == c.Address) then
      Except.error "duplicate virtual frontier contract address"
    else
      Except.ok { s with vfContracts := s.vfContracts ++ [c] }

/-- Modelled from the spec: k.DeployNewVirtualFrontierBankContract
(spec 4.4 deployNext), whose keeper implementation is not among the
sources: derive the next address from the deployer sequence, build the
bank-contract record, write it via create, and increment the deployer
sequence in the same unit of work. Returns the new address. -/
def deployNewVirtualFrontierBankContract (s : EvmState) (active : Bool)
    (vfMeta : VFBankContractMetadata) (denomMeta : BankMetadata) :
    Except String (EvmState × List Nat) :=
  let _ := denomMeta
  let addr := vfcAddressFromSequence s.deployerSequence
  let contract : VirtualFrontierContract :=
    { Address := formatAddress addr, Active := active, Type' := 1, Metadata := vfMeta }
  match vfcCreate s contract with
  | Except.error e => Except.error e
  | Except.ok s1 => Except.ok ({ s1 with deployerSequence := s1.deployerSequence + 1 }, addr)

/-- The tail of the devnet bootstrap once the bank denomination metadata is
at hand (genesis.go lines 133-148): validate the collected metadata and
deploy the virtual frontier bank contract for the native token. -/
def devChainDeploy (s : EvmState) (vfMeta : VFBankContractMetadata)
    (bankMeta : BankMetadata) : GRes :=
  let collected := collectMetadataForVirtualFrontierBankContract bankMeta
  if ¬ collected.2 then
    gpanic "prepared bank denom metadata for native assets is invalid" s
  else
    match deployNewVirtualFrontierBankContract s true vfMeta collected.1 with
    | Except.error e => gpanic e s
    | Except.ok (s1, _) => Except.ok s1

/-- The devnet bootstrap step of InitGenesis (genesis.go lines 96-150):
on an Ethermint dev chain, when no virtual frontier bank contract exists
for the EVM fee denomination, ensure denomination metadata exists
(synthesizing a default whose display name is ToUpper(denom[1:]) — a Go
slice panic when the denomination is empty) and deploy the contract. -/
def devChainStep (ctx : Ctx) (s : EvmState) (dataParams : Params) : GRes :=
  if ¬ ctx.isEthermintDevChain then Except.ok s
  else
    let denom := dataParams.EvmDenom
    match getVFBankContractAddressByDenom s denom with
    | some _ => Except.ok s
    | none =>
      let vfMeta : VFBankContractMetadata :=
        { MinDenom := denom, Exponent := 0, DisplayName := "" }
      match getDenomMetaData s denom with
      | some md => devChainDeploy s vfMeta md
      | none =>
        match goSliceFrom denom 1 with
        | none => gpanic "slice bounds out of range" s
        | some tail =>
          let name := toUpperStr tail
          let md : BankMetadata :=
            { DenomUnits := [{ Denom := denom, Exponent := 0 }, { Denom := name, Exponent := 18 }],
              Base := denom, Display := name, Name := name, Symbol := name }
          devChainDeploy (setDenomMetaData s md) vfMeta md

/-- Modelled from the spec: k.GenesisImportVirtualFrontierContracts
(spec 4.4, genesis-time bulk import variant), whose keeper implementation
is not among the sources: write each snapshot record in order via create,
without touching the deployer sequence; the first failure aborts. -/
def genesisImportVirtualFrontierContracts : EvmState → List VirtualFrontierContract → GRes
  | s, [] => Except.ok s
  | s, c :: rest =>
    match vfcCreate s c with
    | Except.error e => gpanic e s
    | Except.ok s1 => genesisImportVirtualFrontierContracts s1 rest

/-- The closing invariant check of InitGenesis (genesis.go lines 158-168):
count every persisted virtual-frontier-contract record and require the
deployer module account's sequence number to equal that count. -/
def deployerSequenceCheck (s : EvmState) : GRes :=
  let deployedVFCsCount := s.vfContracts.length
  if s.deployerSequence ≠ deployedVFCsCount then
    gpanic "invalid sequence number for deployer account" s
  else
    Except.ok s

/-- Sequencing of genesis steps: a panic in the first step propagates,
otherwise the next step runs on the produced state. -/
def gbind (r : GRes) (f : EvmState → GRes) : GRes :=
  match r with
  | Except.error e => Except.error e
  | Except.ok a => f a

/-- The part of InitGenesis following the Dymension precheck and the
SetParams write (genesis.go lines 54-170): module-account checks, the
account loop, the devnet bootstrap, the bulk import and the closing
deployer-sequence check. -/
def initGenesisCore (ctx : Ctx) (s1 : EvmState) (data : GenesisState) : GRes :=
  if ¬ s1.evmModuleAddressSet then gpanic "the EVM module account has not been set" s1
  else if ¬ s1.vfcDeployerAddressSet then gpanic "the VFC deployer account has not been set" s1
  else
    gbind (initGenesisAccounts s1 data.Accounts) fun s2 =>
      gbind (devChainStep ctx s2 data.Params) fun s3 =>
        gbind (if data.VirtualFrontierContracts.length > 0 then
                 genesisImportVirtualFrontierContracts s3 data.VirtualFrontierContracts
               else Except.ok s3)
          deployerSequenceCheck

/-- InitGenesis (genesis.go lines 36-171). SetParams stores the snapshot
parameters (parameter validation is out of scope and modelled as always
succeeding); k.WithChainID is an in-memory operation with no modelled
state. -/
def InitGenesis (ctx : Ctx) (s : EvmState) (data : GenesisState) : GRes :=
  if ctx.isDymensionChain ∧ data.Params.EnableCreate then
    gpanic "enable create is not allowed on Dymension chains" s
  else
    initGenesisCore ctx { s with params := data.Params } data

/-! ## Shared lemmas and concrete fixtures -/

/-- A string has length zero exactly when it is empty. -/
theorem strLengthZeroIff (s : String) : s.length = 0 ↔ s = "" := by
  cases s with
  | mk data =>
    cases data with
    | nil => simp [String.length]
    | cons c cs => simp [String.length, String.ext_iff]

/-- The bank-contract metadata used across the repository's tests. -/
def sampleMeta : VFBankContractMetadata :=
  { MinDenom := "wei", Exponent := 18, DisplayName := "ETH" }

/-- A well-formed bank contract record (the tests' normal case). -/
def sampleContract1 : VirtualFrontierContract :=
  { Address := "0x405b96e2538ac85ee862e332fa634b158d013ae1", Active := true,
    Type' := 1, Metadata := sampleMeta }

/-- A second well-formed bank contract record at a distinct address. -/
def sampleContract2 : VirtualFrontierContract :=
  { Address := "0x405b96e2538ac85ee862e332fa634b158d013ae2", Active := true,
    Type' := 1, Metadata := sampleMeta }

/-- A baseline keeper state: module accounts present, empty stores. -/
def baseState : EvmState :=
  { params := { EnableCreate := false, EvmDenom := "wei" }, accounts := [],
    codes := [], storage := [], vfContracts := [], denomMetadatas := [],
    evmModuleAddressSet := true, vfcDeployerAddressSet := true,
    deployerSequence := 0 }

/-- A context that is neither a Dymension chain nor a dev chain. -/
def plainCtx : Ctx := { isDymensionChain := false, isEthermintDevChain := false }

/-- A Dymension-chain context. -/
def dymCtx : Ctx := { isDymensionChain := true, isEthermintDevChain := false }

/-- An Ethermint dev-chain context. -/
def devCtx : Ctx := { isDymensionChain := false, isEthermintDevChain := true }

/-! ## C6: bank-contract metadata validation -/

/-- C6: VFBankContractMetadata.ValidateBasic fails exactly when the
minimum/reference denomination is empty; any metadata with a non-empty
denomination passes, whatever its exponent and display name. -/
theorem vfBankMetadataValidateBasicIffEmptyDenom :
    ∀ m : VFBankContractMetadata, (m.ValidateBasic).isSome = true ↔ m.MinDenom = "" := by
  intro m
  unfold VFBankContractMetadata.ValidateBasic
  split_ifs with h
  · simpa using (strLengthZeroIff m.MinDenom).mp h
  · simpa using fun hEq => h ((strLengthZeroIff m.MinDenom).mpr hEq)

/-! ## C9: found flag agrees with the Unknown tag -/

/-- C9: GetMethodFromSignature reports found = true exactly when the
returned method tag is not Unknown; the pairs (Unknown, true) and
(non-Unknown, false) are never produced. -/
theorem getMethodFromSignatureFoundIffKnown :
    ∀ input : List Nat,
      (GetMethodFromSignature input).2 = true ↔ (GetMethodFromSignature input).1 ≠ VFBCmUnknown := by
  intro input
  unfold GetMethodFromSignature
  by_cases h : input.length < 4
  · rw [if_pos h]
    simp
  · rw [if_neg h]
    dsimp only
    split_ifs <;> simp

/-! ## C7: Dymension chains must not enable contract creation -/

/-- C7: on a Dymension chain, a genesis state whose parameters enable
contract creation makes InitGenesis panic immediately, before any state
mutation: the panic carries the untouched initial state. -/
theorem initGenesisDymensionEnableCreatePanics :
    ∀ (ctx : Ctx) (s : EvmState) (data : GenesisState),
      ctx.isDymensionChain = true → data.Params.EnableCreate = true →
      InitGenesis ctx s data =
        Except.error ("enable create is not allowed on Dymension chains", s) := by
  intro ctx s data h1 h2
  unfold InitGenesis
  rw [if_pos]
  · rfl
  · exact ⟨h1, h2⟩

/-- Witness for C7 at a concrete context, state and genesis document. -/
theorem initGenesisDymensionEnableCreatePanicsWitness :
    InitGenesis dymCtx baseState
      { Params := { EnableCreate := true, EvmDenom := "wei" }, Accounts := [],
        VirtualFrontierContracts := [] } =
      Except.error ("enable create is not allowed on Dymension chains", baseState) :=
  initGenesisDymensionEnableCreatePanics dymCtx baseState
    { Params := { EnableCreate := true, EvmDenom := "wei" }, Accounts := [],
      VirtualFrontierContracts := [] } rfl rfl

/-! ## C8: the devnet bootstrap is idempotent -/

/-- C8: on a dev chain, when a virtual frontier bank contract is already
registered for the fee denomination, the bootstrap step of InitGenesis
deploys nothing and raises no error: it returns the state unchanged. -/
theorem devChainStepIdempotent :
    ∀ (ctx : Ctx) (s : EvmState) (p : Params),
      ctx.isEthermintDevChain = true →
      (getVFBankContractAddressByDenom s p.EvmDenom).isSome = true →
      devChainStep ctx s p = Except.ok s := by
  intro ctx s p h1 h2
  unfold devChainStep
  rw [if_neg (by simp [h1])]
  obtain ⟨a, ha⟩ := Option.isSome_iff_exists.mp h2
  dsimp only
  rw [ha]

/-- A baseline state that already holds the bank contract for "wei". -/
def stateWithBankContract : EvmState :=
  { baseState with vfContracts := [sampleContract1] }

/-- Witness for C8: re-running the bootstrap with the contract already
present changes nothing. -/
theorem devChainStepIdempotentWitness :
    devChainStep devCtx stateWithBankContract { EnableCreate := false, EvmDenom := "wei" } =
      Except.ok stateWithBankContract :=
  devChainStepIdempotent devCtx stateWithBankContract
    { EnableCreate := false, EvmDenom := "wei" } rfl rfl

/-! ## C10: empty fee denomination makes the devnet bootstrap slice-panic -/

/-- C10: on a dev chain with an empty EVM fee denomination, no registered
bank contract and no denomination metadata, the bootstrap step of
InitGenesis aborts with Go's out-of-range slice panic (from denom[1:]),
not a descriptive error, leaving the state untouched. -/
theorem devChainStepEmptyDenomSlicePanics :
    ∀ (ctx : Ctx) (s : EvmState) (p : Params),
      ctx.isEthermintDevChain = true →
      p.EvmDenom = "" →
      getVFBankContractAddressByDenom s "" = none →
      getDenomMetaData s "" = none →
      devChainStep ctx s p = Except.error ("slice bounds out of range", s) := by
  intro ctx s p h1 h2 h3 h4
  unfold devChainStep
  rw [if_neg (by simp [h1])]
  dsimp only
  rw [h2, h3, h4]
  rfl

/-- Witness for C10 at the baseline empty state. -/
theorem devChainStepEmptyDenomSlicePanicsWitness :
    devChainStep devCtx baseState { EnableCreate := false, EvmDenom := "" } =
      Except.error ("slice bounds out of range", baseState) :=
  devChainStepEmptyDenomSlicePanics devCtx baseState
    { EnableCreate := false, EvmDenom := "" } rfl rfl rfl rfl

/-! ## C5: address-text parsing -/

/-- A string of hex digits never carries a 0x prefix marker. -/
theorem has0xFalseOfAllHex (cs : List Char) (h : cs.all isHexChar = true) :
    has0x cs = false := by
  match cs with
  | [] => rfl
  | [c] => rfl
  | c1 :: c2 :: rest =>
    simp only [List.all_cons, Bool.and_eq_true] at h
    obtain ⟨h1, h2, _⟩ := h
    simp only [has0x, decide_eq_false_iff_not]
    rintro ⟨rfl, hc2⟩
    rcases hc2 with rfl | rfl
    · exact absurd h2 (by decide)
    · exact absurd h2 (by decide)

/-- C5: parsing a contract record's address text accepts an optional 0x
prefix; the empty string parses to the all-zero 20-byte address instead of
an error (so ContractAddress of an empty-address record is the zero
address), and it is ValidateBasic that rejects the zero address with the
nil-address error. -/
theorem contractAddressParsing :
    (∀ s : String, s.data.all isHexChar = true →
        hexToAddress ("0x" ++ s) = hexToAddress s) ∧
    hexToAddress "" = List.replicate 20 0 ∧
    (∀ (act : Bool) (t : Nat) (md : VFBankContractMetadata),
        VirtualFrontierContract.ContractAddress
          { Address := "", Active := act, Type' := t, Metadata := md } =
          List.replicate 20 0) ∧
    (∀ (act : Bool) (t : Nat) (md : VFBankContractMetadata),
        VirtualFrontierContract.ValidateBasic
          { Address := zeroAddressText, Active := act, Type' := t, Metadata := md } =
          some "nil address") := by
  refine ⟨?_, by decide, fun act t md => rfl, fun act t md => rfl⟩
  intro s h
  unfold hexToAddress
  have hdata : ("0x" ++ s).data = '0' :: 'x' :: s.data := by
    rw [String.data_append]
    rfl
  rw [hdata]
  unfold fromHexChars
  rw [show has0x ('0' :: 'x' :: s.data) = true from by simp [has0x]]
  rw [has0xFalseOfAllHex s.data h]
  rfl

/-- Witness for C5 at the tests' sample address. -/
theorem contractAddressParsingWitness :
    hexToAddress ("0x" ++ "405b96e2538ac85ee862e332fa634b158d013ae1") =
      hexToAddress "405b96e2538ac85ee862e332fa634b158d013ae1" :=
  contractAddressParsing.1 "405b96e2538ac85ee862e332fa634b158d013ae1" (by decide)

/-! ## C4: order of the record-level validation checks -/

/-- C4 (amended): VirtualFrontierContract.ValidateBasic applies its checks
in the order nil address, malformed address, 0x prefix, lowercase,
contract type, metadata — each error surfaces exactly when its check is
the first to fail. The nil-address comparison is against the canonical
textual zero address, so an empty address string fails the
malformed-address check, not the nil-address check. -/
theorem validateBasicCheckOrder :
    ∀ c : VirtualFrontierContract,
      (c.ValidateBasic = some "nil address" ↔ c.Address = zeroAddressText) ∧
      (c.ValidateBasic = some "malformed address" ↔
        c.Address ≠ zeroAddressText ∧ isHexAddress c.Address = false) ∧
      (c.ValidateBasic = some "must start with 0x" ↔
        c.Address ≠ zeroAddressText ∧ isHexAddress c.Address = true ∧
        hasPre0x c.Address = false) ∧
      (c.ValidateBasic = some "must be lowercase" ↔
        c.Address ≠ zeroAddressText ∧ isHexAddress c.Address = true ∧
        hasPre0x c.Address = true ∧ c.Address ≠ toLowerStr c.Address) ∧
      (c.ValidateBasic = some "type must be specified" ↔
        c.Address ≠ zeroAddressText ∧ isHexAddress c.Address = true ∧
        hasPre0x c.Address = true ∧ c.Address = toLowerStr c.Address ∧ c.Type' ≠ 1) ∧
      (c.ValidateBasic = some "metadata does not pass validation" ↔
        c.Address ≠ zeroAddressText ∧ isHexAddress c.Address = true ∧
        hasPre0x c.Address = true ∧ c.Address = toLowerStr c.Address ∧ c.Type' = 1 ∧
        (c.Metadata.ValidateBasic).isSome = true) ∧
      (c.ValidateBasic = none ↔
        c.Address ≠ zeroAddressText ∧ isHexAddress c.Address = true ∧
        hasPre0x c.Address = true ∧ c.Address = toLowerStr c.Address ∧ c.Type' = 1 ∧
        (c.Metadata.ValidateBasic).isSome = false) := by
  intro c
  unfold VirtualFrontierContract.ValidateBasic
  split_ifs with h1 h2 h3 h4 h5 h6
  · refine ⟨iff_of_true rfl h1, ?_, ?_, ?_, ?_, ?_, ?_⟩ <;>
      exact iff_of_false (by decide) (fun hh => hh.1 h1)
  · refine ⟨iff_of_false (by decide) (fun hh => h1 hh),
      iff_of_false (by decide) (fun hh => by simp [h2] at hh),
      iff_of_false (by decide) (fun hh => by simp [h3] at hh),
      iff_of_true rfl ⟨h1, h2, h3, h4⟩, ?_, ?_, ?_⟩ <;>
      exact iff_of_false (by decide) (fun hh => h4 hh.2.2.2.1)
  · rw [not_not] at h4
    refine ⟨iff_of_false (by decide) (fun hh => h1 hh),
      iff_of_false (by decide) (fun hh => by simp [h2] at hh),
      iff_of_false (by decide) (fun hh => by simp [h3] at hh),
      iff_of_false (by decide) (fun hh => hh.2.2.2 h4),
      iff_of_true rfl ⟨h1, h2, h3, h4, h5⟩, ?_, ?_⟩ <;>
      exact iff_of_false (by decide) (fun hh => h5 hh.2.2.2.2.1)
  · rw [not_not] at h4 h5
    exact ⟨iff_of_false (by decide) (fun hh => h1 hh),
      iff_of_false (by decide) (fun hh => by simp [h2] at hh),
      iff_of_false (by decide) (fun hh => by simp [h3] at hh),
      iff_of_false (by decide) (fun hh => hh.2.2.2 h4),
      iff_of_false (by decide) (fun hh => hh.2.2.2.2 h5),
      iff_of_true rfl ⟨h1, h2, h3, h4, h5, h6⟩,
      iff_of_false (by decide) (fun hh => by simp [h6] at hh)⟩
  · rw [not_not] at h4 h5
    have h6f : (c.Metadata.ValidateBasic).isSome = false := by simpa using h6
    exact ⟨iff_of_false (by decide) (fun hh => h1 hh),
      iff_of_false (by decide) (fun hh => by simp [h2] at hh),
      iff_of_false (by decide) (fun hh => by simp [h3] at hh),
      iff_of_false (by decide) (fun hh => hh.2.2.2 h4),
      iff_of_false (by decide) (fun hh => hh.2.2.2.2 h5),
      iff_of_false (by decide) (fun hh => h6 hh.2.2.2.2.2),
      iff_of_true rfl ⟨h1, h2, h3, h4, h5, h6f⟩⟩
  · have h3f : hasPre0x c.Address = false := by simpa using h3
    refine ⟨iff_of_false (by decide) (fun hh => h1 hh),
      iff_of_false (by decide) (fun hh => by simp [h2] at hh),
      iff_of_true rfl ⟨h1, h2, h3f⟩, ?_, ?_, ?_, ?_⟩ <;>
      exact iff_of_false (by decide) (fun hh => h3 hh.2.2.1)
  · have h2f : isHexAddress c.Address = false := by simpa using h2
    refine ⟨iff_of_false (by decide) (fun hh => h1 hh),
      iff_of_true rfl ⟨h1, h2f⟩, ?_, ?_, ?_, ?_, ?_⟩ <;>
      exact iff_of_false (by decide) (fun hh => h2 hh.2.1)

/-- Counterexample to C4 as stated: the record with the empty address
string is rejected by the malformed-address check, not by the nil-address
check that the claim says it hits first. -/
theorem validateBasicEmptyAddressCounterexample :
    VirtualFrontierContract.ValidateBasic
      { Address := "", Active := true, Type' := 1, Metadata := sampleMeta } =
      some "malformed address" ∧
    VirtualFrontierContract.ValidateBasic
      { Address := "", Active := true, Type' := 1, Metadata := sampleMeta } ≠
      some "nil address" := by
  exact ⟨rfl, by decide⟩

/-! ## C1: the deployer-sequence invariant check -/

/-- Inversion of genesis-step sequencing: a successful composite run means
the first step succeeded and the continuation succeeded on its state. -/
theorem gbindOkInv (r : GRes) (f : EvmState → GRes) (s' : EvmState)
    (h : gbind r f = Except.ok s') : ∃ a, r = Except.ok a ∧ f a = Except.ok s' := by
  cases r with
  | error e => exact absurd h (by simp [gbind])
  | ok a => exact ⟨a, rfl, h⟩

/-- Inversion for the closing check: a successful result passes through the
state unchanged and certifies the count/sequence agreement. -/
theorem deployerSequenceCheckOkInv (x s' : EvmState)
    (h : deployerSequenceCheck x = Except.ok s') :
    s'.vfContracts.length = s'.deployerSequence := by
  unfold deployerSequenceCheck at h
  by_cases hc : x.deployerSequence ≠ x.vfContracts.length
  · rw [if_pos hc] at h
    exact absurd h (by simp [gpanic])
  · rw [if_neg hc] at h
    obtain rfl : x = s' := by injection h
    omega

/-- C1: the closing step of InitGenesis counts every persisted
virtual-frontier-contract record and panics exactly when that count
differs from the deployer account's sequence number; consequently any
completed InitGenesis run ends in a state whose record count equals the
deployer sequence. -/
theorem initGenesisDeployerSequenceInvariant :
    (∀ s : EvmState, s.deployerSequence ≠ s.vfContracts.length →
        deployerSequenceCheck s =
          Except.error ("invalid sequence number for deployer account", s)) ∧
    (∀ s : EvmState, s.deployerSequence = s.vfContracts.length →
        deployerSequenceCheck s = Except.ok s) ∧
    (∀ (ctx : Ctx) (s : EvmState) (data : GenesisState) (s' : EvmState),
        InitGenesis ctx s data = Except.ok s' →
        s'.vfContracts.length = s'.deployerSequence) := by
  refine ⟨?_, ?_, ?_⟩
  · intro s hne
    unfold deployerSequenceCheck
    rw [if_pos hne]
    rfl
  · intro s heq
    unfold deployerSequenceCheck
    rw [if_neg (by omega)]
  · intro ctx s data s' h
    unfold InitGenesis at h
    have hcore : ∀ x : EvmState, initGenesisCore ctx x data = Except.ok s' →
        s'.vfContracts.length = s'.deployerSequence := by
      intro x hx
      unfold initGenesisCore at hx
      by_cases hB : ¬ x.evmModuleAddressSet = true
      · rw [if_pos hB] at hx
        exact absurd hx (by simp [gpanic])
      rw [if_neg hB] at hx
      by_cases hC : ¬ x.vfcDeployerAddressSet = true
      · rw [if_pos hC] at hx
        exact absurd hx (by simp [gpanic])
      rw [if_neg hC] at hx
      obtain ⟨s2, _, hx⟩ := gbindOkInv _ _ _ hx
      obtain ⟨s3, _, hx⟩ := gbindOkInv _ _ _ hx
      obtain ⟨s4, _, hx⟩ := gbindOkInv _ _ _ hx
      exact deployerSequenceCheckOkInv s4 s' hx
    by_cases hA : ctx.isDymensionChain = true ∧ data.Params.EnableCreate = true
    · rw [if_pos hA] at h
      exact absurd h (by simp [gpanic])
    · rw [if_neg hA] at h
      exact hcore _ h

/-- The expected final state of the witness run for C1: two records
imported, deployer sequence two. -/
def importedState : EvmState :=
  { baseState with
    vfContracts := [sampleContract1, sampleContract2]
    deployerSequence := 2 }

/-- Witness for C1: a full InitGenesis run importing two well-formed
records with deployer sequence two completes, and its final state
satisfies the count/sequence invariant. -/
theorem initGenesisDeployerSequenceInvariantWitness :
    InitGenesis plainCtx { baseState with deployerSequence := 2 }
      { Params := { EnableCreate := false, EvmDenom := "wei" }, Accounts := [],
        VirtualFrontierContracts := [sampleContract1, sampleContract2] } =
      Except.ok importedState ∧
    importedState.vfContracts.length = importedState.deployerSequence := by
  have h : InitGenesis plainCtx { baseState with deployerSequence := 2 }
      { Params := { EnableCreate := false, EvmDenom := "wei" }, Accounts := [],
        VirtualFrontierContracts := [sampleContract1, sampleContract2] } =
      Except.ok importedState := by rfl
  exact ⟨h, initGenesisDeployerSequenceInvariant.2.2 plainCtx
    { baseState with deployerSequence := 2 }
    { Params := { EnableCreate := false, EvmDenom := "wei" }, Accounts := [],
      VirtualFrontierContracts := [sampleContract1, sampleContract2] }
    importedState h⟩

/-! ## C2: the code-hash check of the account loop -/

/-- C2: for an account entry whose native account exists and is an
EthAccount, a non-empty code field whose decoded bytes hash (Keccak-256)
differently from the recorded code hash makes the account import panic;
an empty code field skips the comparison and the account imports whatever
hash is recorded. -/
theorem initGenesisAccountCodeHashCheck :
    ∀ (s : EvmState) (account : GenesisAccount) (acc : NativeAccount),
      lookupAccount s (hexToAddress account.Address) = some acc →
      acc.isEthAccount = true →
      (account.Code ≠ "" →
          acc.codeHash ≠ keccak256 (hex2Bytes account.Code) →
          initGenesisAccount s account =
            Except.error ("the evm state code doesn't match with the codehash", s)) ∧
      (account.Code = "" →
          ∃ s' : EvmState, initGenesisAccount s account = Except.ok s') := by
  intro s account acc hl he
  unfold initGenesisAccount
  dsimp only
  rw [hl]
  dsimp only
  rw [if_neg (by simp [he])]
  constructor
  · intro hne hhash
    rw [if_pos ⟨fun hz => hne ((strLengthZeroIff account.Code).mp hz), hhash⟩]
    rfl
  · intro hempty
    rw [if_neg (fun hc => hc.1 ((strLengthZeroIff account.Code).mpr hempty))]
    exact ⟨_, rfl⟩

/-- A keeper state holding one EthAccount at the tests' sample address
whose recorded code hash is the all-zero word. -/
def hashMismatchState : EvmState :=
  { baseState with
    accounts := [(hexToAddress "0x405b96e2538ac85ee862e332fa634b158d013ae1",
      { isEthAccount := true, codeHash := List.replicate 32 0 })] }

/-- The sample native account recorded in hashMismatchState. -/
def zeroHashAccount : NativeAccount :=
  { isEthAccount := true, codeHash := List.replicate 32 0 }

/-- A genesis account entry with one byte of code. -/
def genesisAccountWithCode : GenesisAccount :=
  { Address := "0x405b96e2538ac85ee862e332fa634b158d013ae1", Code := "aa", Storage := [] }

/-- The same genesis account entry with an empty code field. -/
def genesisAccountNoCode : GenesisAccount :=
  { Address := "0x405b96e2538ac85ee862e332fa634b158d013ae1", Code := "", Storage := [] }

/-- Witness for C2: with the all-zero recorded hash, importing the entry
with code "aa" panics on the hash mismatch, while importing the entry with
empty code succeeds despite the wrong recorded hash. -/
theorem initGenesisAccountCodeHashCheckWitness :
    initGenesisAccount hashMismatchState genesisAccountWithCode =
      Except.error ("the evm state code doesn't match with the codehash", hashMismatchState) ∧
    (initGenesisAccount hashMismatchState genesisAccountNoCode).isOk = true := by
  constructor
  · exact (initGenesisAccountCodeHashCheck hashMismatchState genesisAccountWithCode
      zeroHashAccount rfl rfl).1 (by decide) (by decide)
  · obtain ⟨s', hs⟩ := (initGenesisAccountCodeHashCheck hashMismatchState genesisAccountNoCode
      zeroHashAccount rfl rfl).2 rfl
    rw [hs]
    rfl

/-! ## C3: the selector dispatch table -/

/-- Nat.digitChar maps everything from 16 upward to the placeholder. -/
theorem digitCharGe16 (y : Nat) (hy : 16 ≤ y) : Nat.digitChar y = '*' := by
  obtain ⟨n, rfl⟩ : ∃ n, y = n + 16 := ⟨y - 16, by omega⟩
  rfl

/-- The sixteen digit characters avoid the placeholder. -/
theorem digitCharLt16Ne : ∀ a : Fin 16, Nat.digitChar a.val ≠ '*' := by decide

/-- Nat.digitChar is injective below 16. -/
theorem digitCharInjFin : ∀ a b : Fin 16,
    Nat.digitChar a.val = Nat.digitChar b.val ↔ a = b := by decide

/-- Two digit characters agree exactly when the digits agree, for any
left digit and a right digit below 16. -/
theorem digitCharEqIff (y k : Nat) (hk : k < 16) :
    Nat.digitChar y = Nat.digitChar k ↔ y = k := by
  by_cases hy : y < 16
  · simpa [Fin.ext_iff] using digitCharInjFin ⟨y, hy⟩ ⟨k, hk⟩
  · constructor
    · intro h
      exact absurd (by rw [← h]; exact (digitCharGe16 y (by omega)).symm)
        (digitCharLt16Ne ⟨k, hk⟩).symm
    · intro h
      exact absurd (h ▸ hk) hy

/-- Characterization of the lowercase hex encoding of a four-byte block
against a fixed eight-digit string. -/
theorem hexEncode4Eq (b0 b1 b2 b3 h0 l0 h1 l1 h2 l2 h3 l3 : Nat)
    (H : h0 < 16 ∧ l0 < 16 ∧ h1 < 16 ∧ l1 < 16 ∧ h2 < 16 ∧ l2 < 16 ∧ h3 < 16 ∧ l3 < 16) :
    hexEncodeToString [b0, b1, b2, b3] =
      String.mk [Nat.digitChar h0, Nat.digitChar l0, Nat.digitChar h1, Nat.digitChar l1,
        Nat.digitChar h2, Nat.digitChar l2, Nat.digitChar h3, Nat.digitChar l3] ↔
    (b0 = 16 * h0 + l0 ∧ b1 = 16 * h1 + l1 ∧ b2 = 16 * h2 + l2 ∧ b3 = 16 * h3 + l3) := by
  obtain ⟨H0, H1, H2, H3, H4, H5, H6, H7⟩ := H
  unfold hexEncodeToString
  simp only [encodeHexChars]
  rw [String.ext_iff]
  dsimp only
  simp only [List.cons.injEq, and_true]
  rw [digitCharEqIff _ _ H0, digitCharEqIff _ _ H1, digitCharEqIff _ _ H2,
    digitCharEqIff _ _ H3, digitCharEqIff _ _ H4, digitCharEqIff _ _ H5,
    digitCharEqIff _ _ H6, digitCharEqIff _ _ H7]
  omega

/-- C3: the dispatcher returns not-found on every payload shorter than
four bytes, maps each of the six fixed selectors to its operation whatever
the remaining payload, and returns Unknown/not-found on every payload of
length at least four whose first four bytes match none of the six
selectors. -/
theorem getMethodFromSignatureSelectors :
    (∀ input : List Nat, input.length < 4 →
        GetMethodFromSignature input = (VFBCmUnknown, false)) ∧
    (∀ rest : List Nat,
        GetMethodFromSignature (0x06 :: 0xfd :: 0xde :: 0x03 :: rest) = (VFBCmName, true)) ∧
    (∀ rest : List Nat,
        GetMethodFromSignature (0x95 :: 0xd8 :: 0x9b :: 0x41 :: rest) = (VFBCmSymbol, true)) ∧
    (∀ rest : List Nat,
        GetMethodFromSignature (0x31 :: 0x3c :: 0xe5 :: 0x67 :: rest) = (VFBCmDecimals, true)) ∧
    (∀ rest : List Nat,
        GetMethodFromSignature (0x18 :: 0x16 :: 0x0d :: 0xdd :: rest) = (VFBCmTotalSupply, true)) ∧
    (∀ rest : List Nat,
        GetMethodFromSignature (0x70 :: 0xa0 :: 0x82 :: 0x31 :: rest) = (VFBCmBalanceOf, true)) ∧
    (∀ rest : List Nat,
        GetMethodFromSignature (0xa9 :: 0x05 :: 0x9c :: 0xbb :: rest) = (VFBCmTransfer, true)) ∧
    (∀ (b0 b1 b2 b3 : Nat) (rest : List Nat),
        ¬(b0 = 0x06 ∧ b1 = 0xfd ∧ b2 = 0xde ∧ b3 = 0x03) →
        ¬(b0 = 0x95 ∧ b1 = 0xd8 ∧ b2 = 0x9b ∧ b3 = 0x41) →
        ¬(b0 = 0x31 ∧ b1 = 0x3c ∧ b2 = 0xe5 ∧ b3 = 0x67) →
        ¬(b0 = 0x18 ∧ b1 = 0x16 ∧ b2 = 0x0d ∧ b3 = 0xdd) →
        ¬(b0 = 0x70 ∧ b1 = 0xa0 ∧ b2 = 0x82 ∧ b3 = 0x31) →
        ¬(b0 = 0xa9 ∧ b1 = 0x05 ∧ b2 = 0x9c ∧ b3 = 0xbb) →
        GetMethodFromSignature (b0 :: b1 :: b2 :: b3 :: rest) = (VFBCmUnknown, false)) := by
  refine ⟨?_, ?_, ?_, ?_, ?_, ?_, ?_, ?_⟩
  · intro input h
    unfold GetMethodFromSignature
    rw [if_pos h]
  · intro rest
    unfold GetMethodFromSignature
    rw [if_neg (by simp)]
    rfl
  · intro rest
    unfold GetMethodFromSignature
    rw [if_neg (by simp)]
    rfl
  · intro rest
    unfold GetMethodFromSignature
    rw [if_neg (by simp)]
    rfl
  · intro rest
    unfold GetMethodFromSignature
    rw [if_neg (by simp)]
    rfl
  · intro rest
    unfold GetMethodFromSignature
    rw [if_neg (by simp)]
    rfl
  · intro rest
    unfold GetMethodFromSignature
    rw [if_neg (by simp)]
    rfl
  · intro b0 b1 b2 b3 rest n1 n2 n3 n4 n5 n6
    unfold GetMethodFromSignature
    rw [if_neg (by simp)]
    dsimp only
    rw [show List.take 4 (b0 :: b1 :: b2 :: b3 :: rest) = [b0, b1, b2, b3] from rfl]
    have e1 : hexEncodeToString [b0, b1, b2, b3] ≠ "06fdde03" := by
      intro hc
      rw [show ("06fdde03" : String) = String.mk [Nat.digitChar 0, Nat.digitChar 6,
        Nat.digitChar 15, Nat.digitChar 13, Nat.digitChar 13, Nat.digitChar 14,
        Nat.digitChar 0, Nat.digitChar 3] from rfl,
        hexEncode4Eq b0 b1 b2 b3 0 6 15 13 13 14 0 3 (by omega)] at hc
      exact n1 ⟨by omega, by omega, by omega, by omega⟩
    have e2 : hexEncodeToString [b0, b1, b2, b3] ≠ "95d89b41" := by
      intro hc
      rw [show ("95d89b41" : String) = String.mk [Nat.digitChar 9, Nat.digitChar 5,
        Nat.digitChar 13, Nat.digitChar 8, Nat.digitChar 9, Nat.digitChar 11,
        Nat.digitChar 4, Nat.digitChar 1] from rfl,
        hexEncode4Eq b0 b1 b2 b3 9 5 13 8 9 11 4 1 (by omega)] at hc
      exact n2 ⟨by omega, by omega, by omega, by omega⟩
    have e3 : hexEncodeToString [b0, b1, b2, b3] ≠ "313ce567" := by
      intro hc
      rw [show ("313ce567" : String) = String.mk [Nat.digitChar 3, Nat.digitChar 1,
        Nat.digitChar 3, Nat.digitChar 12, Nat.digitChar 14, Nat.digitChar 5,
        Nat.digitChar 6, Nat.digitChar 7] from rfl,
        hexEncode4Eq b0 b1 b2 b3 3 1 3 12 14 5 6 7 (by omega)] at hc
      exact n3 ⟨by omega, by omega, by omega, by omega⟩
    have e4 : hexEncodeToString [b0, b1, b2, b3] ≠ "18160ddd" := by
      intro hc
      rw [show ("18160ddd" : String) = String.mk [Nat.digitChar 1, Nat.digitChar 8,
        Nat.digitChar 1, Nat.digitChar 6, Nat.digitChar 0, Nat.digitChar 13,
        Nat.digitChar 13, Nat.digitChar 13] from rfl,
        hexEncode4Eq b0 b1 b2 b3 1 8 1 6 0 13 13 13 (by omega)] at hc
      exact n4 ⟨by omega, by omega, by omega, by omega⟩
    have e5 : hexEncodeToString [b0, b1, b2, b3] ≠ "70a08231" := by
      intro hc
      rw [show ("70a08231" : String) = String.mk [Nat.digitChar 7, Nat.digitChar 0,
        Nat.digitChar 10, Nat.digitChar 0, Nat.digitChar 8, Nat.digitChar 2,
        Nat.digitChar 3, Nat.digitChar 1] from rfl,
        hexEncode4Eq b0 b1 b2 b3 7 0 10 0 8 2 3 1 (by omega)] at hc
      exact n5 ⟨by omega, by omega, by omega, by omega⟩
    have e6 : hexEncodeToString [b0, b1, b2, b3] ≠ "a9059cbb" := by
      intro hc
      rw [show ("a9059cbb" : String) = String.mk [Nat.digitChar 10, Nat.digitChar 9,
        Nat.digitChar 0, Nat.digitChar 5, Nat.digitChar 9, Nat.digitChar 12,
        Nat.digitChar 11, Nat.digitChar 11] from rfl,
        hexEncode4Eq b0 b1 b2 b3 10 9 0 5 9 12 11 11 (by omega)] at hc
      exact n6 ⟨by omega, by omega, by omega, by omega⟩
    rw [if_neg e1, if_neg e2, if_neg e3, if_neg e4, if_neg e5, if_neg e6]

/-- Witness for C3: a short payload, the six selectors, and the deadbeef
payload, each dispatched as the theorem states. -/
theorem getMethodFromSignatureSelectorsWitness :
    GetMethodFromSignature [0x06, 0xfd, 0xde] = (VFBCmUnknown, false) ∧
    GetMethodFromSignature [0x06, 0xfd, 0xde, 0x03] = (VFBCmName, true) ∧
    GetMethodFromSignature [0x95, 0xd8, 0x9b, 0x41] = (VFBCmSymbol, true) ∧
    GetMethodFromSignature [0x31, 0x3c, 0xe5, 0x67] = (VFBCmDecimals, true) ∧
    GetMethodFromSignature [0x18, 0x16, 0x0d, 0xdd] = (VFBCmTotalSupply, true) ∧
    GetMethodFromSignature [0x70, 0xa0, 0x82, 0x31] = (VFBCmBalanceOf, true) ∧
    GetMethodFromSignature [0xa9, 0x05, 0x9c, 0xbb] = (VFBCmTransfer, true) ∧
    GetMethodFromSignature [0xde, 0xad, 0xbe, 0xef] = (VFBCmUnknown, false) :=
  ⟨getMethodFromSignatureSelectors.1 [0x06, 0xfd, 0xde] (by decide),
    getMethodFromSignatureSelectors.2.1 [],
    getMethodFromSignatureSelectors.2.2.1 [],
    getMethodFromSignatureSelectors.2.2.2.1 [],
    getMethodFromSignatureSelectors.2.2.2.2.1 [],
    getMethodFromSignatureSelectors.2.2.2.2.2.1 [],
    getMethodFromSignatureSelectors.2.2.2.2.2.2.1 [],
    getMethodFromSignatureSelectors.2.2.2.2.2.2.2 0xde 0xad 0xbe 0xef []
      (by decide) (by decide) (by decide) (by decide) (by decide) (by decide)⟩

end FDE
